import Mathlib

/-!
Verification of the NutriTailor AI backend core: the conversational reply
generator (`generate_nutrition_reply`) and the chat session/message
persistence contract (`chat`, `get_messages`) from `main.py`.

Python-level primitives (lowercasing, substring containment via `in`,
`str.strip`, `str.join`, `bytes.hex`) are modelled over `List Char`
explicitly. `str.lower` / `str.strip` are modelled on the ASCII range,
which covers every keyword and fragment the code manipulates.
-/

namespace NutriTailor

/-- Model of Python `str.lower` for one ASCII character. -/
def lowerChar (c : Char) : Char :=
  if 65 ≤ c.toNat ∧ c.toNat ≤ 90 then Char.ofNat (c.toNat + 32) else c

/-- Model of Python `str.lower` (ASCII range). -/
def pyLower (s : String) : String :=
  ⟨s.data.map lowerChar⟩

/-- Whether `p` is an initial segment of `s`. -/
def leadsList : List Char → List Char → Bool
  | [], _ => true
  | _ :: _, [] => false
  | a :: as, b :: bs => a == b && leadsList as bs

/-- Whether `p` occurs contiguously inside `s`. -/
def occursIn (p : List Char) : List Char → Bool
  | [] => leadsList p []
  | b :: rest => leadsList p (b :: rest) || occursIn p rest

/-- Model of the Python expression `pat in s` on strings. -/
def strIn (pat s : String) : Bool :=
  occursIn pat.data s.data

/-- ASCII whitespace characters stripped by Python `str.strip`. -/
def isPyWS (c : Char) : Bool :=
  c == ' ' || c == '\t' || c == '\n' || c == '\r' ||
  c == Char.ofNat 11 || c == Char.ofNat 12

/-- Model of Python `str.strip()` (ASCII whitespace). -/
def pyStrip (s : String) : String :=
  ⟨((s.data.dropWhile isPyWS).reverse.dropWhile isPyWS).reverse⟩

/-- Model of Python `sep.join(parts)`. -/
def joinParts (sep : String) : List String → String
  | [] => ""
  | [x] => x
  | x :: y :: ys => x ++ sep ++ joinParts sep (y :: ys)

/- Keyword tables, in the declaration order of `main.py` lines 145-152. -/

def weightLossKws : List String := ["weight loss", "lose weight", "fat loss"]

def muscleKws : List String := ["muscle", "gain weight", "bulk"]

def energyKws : List String := ["energy", "tired", "fatigue"]

def gutKws : List String := ["ibs", "gut", "bloat"]

/-- Goal detection of `generate_nutrition_reply` (`main.py` lines 144-152):
four sequential appends guarded by `any` membership tests. -/
def detectGoals (text : String) : List String :=
  (if weightLossKws.any (fun k => strIn k text) then ["weight loss"] else []) ++
  (if muscleKws.any (fun k => strIn k text) then ["muscle gain"] else []) ++
  (if energyKws.any (fun k => strIn k text) then ["energy"] else []) ++
  (if gutKws.any (fun k => strIn k text) then ["gut health"] else [])

/- Fixed reply fragments (`main.py` lines 154-174), byte for byte. -/

def openingFragment : String :=
  "Thanks for sharing. I'm your AI nutritional therapist."

def goalFragment (goals : List String) : String :=
  "I detect goals around " ++ joinParts ", " goals ++ "."

def guidanceFragment : String :=
  "General guidance: focus on whole foods, 25–35g protein per meal, plenty of colorful veg, and hydrate."

def breakfastFragment : String :=
  "For breakfast, try Greek yogurt with berries and nuts, or eggs with spinach and wholegrain toast."

def veganFragment : String :=
  "For a vegan approach, prioritize legumes, tofu/tempeh, whole grains, seeds, and B12-fortified foods."

def mealPlanFragment : String :=
  "I can also create a tailored 7‑day meal plan if you share preferences, allergies, and budget."

def closingFragment : String :=
  "Would you like me to estimate your daily calorie target and macros based on age, height, weight, sex, activity?"

/-- Fragment list built by `generate_nutrition_reply` (`main.py` lines 154-174). -/
def replyParts (user_text : String) : List String :=
  let text := pyLower user_text
  let goals := detectGoals text
  [openingFragment] ++
  (if goals = [] then [] else [goalFragment goals]) ++
  [guidanceFragment] ++
  (if strIn "breakfast" text then [breakfastFragment] else []) ++
  (if strIn "vegan" text then [veganFragment] else []) ++
  (if strIn "meal plan" text || strIn "plan" text then [mealPlanFragment] else []) ++
  [closingFragment]

/-- Embedding of `generate_nutrition_reply` (`main.py` lines 142-175). -/
def generate_nutrition_reply (user_text : String) : String :=
  joinParts " " (replyParts user_text)

/-- Goal detection as the spec words it: an ordered scan over a fixed
keyword-to-label table, keeping the labels of the matched rows in
declaration order. Stated from the spec to be compared with `detectGoals`. -/
def specGoalTable : List (List String × String) :=
  [(weightLossKws, "weight loss"), (muscleKws, "muscle gain"),
   (energyKws, "energy"), (gutKws, "gut health")]

/-- Goal labels collected in fixed declaration order (spec wording). -/
def specDetectGoals (text : String) : List String :=
  (specGoalTable.filter (fun e => e.1.any (fun k => strIn k text))).map Prod.snd

/- ----------------------------------------------------------------- -/
/- Chat endpoint and conversation store                               -/
/- ----------------------------------------------------------------- -/

/-- A stored chat message (`schemas.py` `Message`; the documents written by
`chat` in `main.py` lines 188-203). -/
structure Message where
  session_id : String
  role : String
  content : String
deriving DecidableEq, Repr

/-- Chat request body (`main.py` lines 22-25). The pydantic field
`message` carries `min_length=1`; `context` is unused by the core and
omitted. -/
structure ChatRequest where
  message : String
  session_id : Option String
deriving DecidableEq, Repr

/-- Chat response body (`main.py` lines 28-31); the timestamp is the
server clock value at response construction, modelled as a `Nat`. -/
structure ChatResponse where
  reply : String
  session_id : String
  timestamp : Nat
deriving DecidableEq, Repr

/-- An HTTP error surfaced to the caller (FastAPI `HTTPException` or a
pydantic validation failure). -/
structure HttpError where
  status : Nat
  detail : String
deriving DecidableEq, Repr

/-- Hexadecimal digit for a value below 16, lowercase as Python `bytes.hex`. -/
def hexDigit (n : Nat) : Char :=
  if n < 10 then Char.ofNat (48 + n) else Char.ofNat (87 + n)

/-- The two hex digits of one byte. -/
def byteHex (b : Nat) : List Char :=
  [hexDigit (b / 16), hexDigit (b % 16)]

/-- Model of Python `bytes.hex()`: `bytesHex bs` renders the byte list
`bs` as a lowercase hexadecimal string. `os.urandom(8).hex()` at
`main.py` line 183 is `bytesHex rnd` for the 8 random bytes `rnd`. -/
def bytesHex (bs : List Nat) : String :=
  ⟨(bs.map byteHex).flatten⟩

/-- Session id selection at `main.py` line 183:
`req.session_id or os.urandom(8).hex()`. Python `or` takes the right
operand when the left is falsy, i.e. `None` or the empty string. -/
def chosenSessionId (reqSid : Option String) (freshBytes : List Nat) : String :=
  match reqSid with
  | none => bytesHex freshBytes
  | some s => if s = "" then bytesHex freshBytes else s

/-- The conversation store. Modelled from the spec: `database.py` is not
part of the sources; per spec §4.2 the store is a durable append-only
log of messages in insertion order, and a `none` handle models the
"store unavailable" state (`db is None`). -/
def Store : Type := Option (List Message)

/-- Modelled from the spec: `create_document("message", doc)` from the
missing `database.py` appends one document to the append-only log
(spec §4.2, insertion order). -/
def create_message (log : List Message) (m : Message) : List Message :=
  log ++ [m]

/-- Modelled from the spec: `get_documents("message", {"session_id": sid},
limit)` from the missing `database.py` returns the messages of the
session in insertion order, at most `limit` of them (spec §4.2). -/
def get_documents (log : List Message) (sid : String) (limit : Nat) : List Message :=
  (log.filter (fun m => m.session_id = sid)).take limit

/-- Embedding of the `/api/chat` handler (`main.py` lines 178-205)
together with the pydantic validation of `ChatRequest.message`
(`min_length=1`), parametrised by the reply generator `gen`, the fresh
random bytes `freshBytes` drawn by `os.urandom(8)`, and the server
clock `now`. Returns the caller-visible result and the store after the
call. -/
def chatCore (gen : String → String) (freshBytes : List Nat) (now : Nat)
    (store : Option (List Message)) (req : ChatRequest) :
    Except HttpError ChatResponse × Option (List Message) :=
  if req.message = "" then
    (Except.error ⟨422, "String should have at least 1 character"⟩, store)
  else if pyStrip req.message = "" then
    (Except.error ⟨400, "Message cannot be empty"⟩, store)
  else
    let session_id := chosenSessionId req.session_id freshBytes
    let reply := gen req.message
    match store with
    | none => (Except.ok ⟨reply, session_id, now⟩, none)
    | some log =>
        (Except.ok ⟨reply, session_id, now⟩,
         some (create_message (create_message log ⟨session_id, "user", req.message⟩)
                 ⟨session_id, "assistant", reply⟩))

/-- The `/api/chat` handler with the concrete reply generator. -/
def chat (freshBytes : List Nat) (now : Nat) (store : Option (List Message))
    (req : ChatRequest) : Except HttpError ChatResponse × Option (List Message) :=
  chatCore generate_nutrition_reply freshBytes now store req

/-- Embedding of the `/api/messages` handler (`main.py` lines 208-216):
`[]` when the store is unavailable, otherwise the session's messages
up to `limit` (default 50) in insertion order. -/
def get_messages (store : Option (List Message)) (session_id : String)
    (limit : Nat) : List Message :=
  match store with
  | none => []
  | some log => get_documents log session_id limit

/-- Lowercase hexadecimal digit predicate. -/
def isHexCh (c : Char) : Bool :=
  ('0' ≤ c && c ≤ '9') || ('a' ≤ c && c ≤ 'f')

/- ----------------------------------------------------------------- -/
/- Supporting lemmas                                                  -/
/- ----------------------------------------------------------------- -/

lemma data_append (s t : String) : (s ++ t).data = s.data ++ t.data := by
  cases s; cases t; rfl

lemma leadsList_iff (p : List Char) : ∀ s, leadsList p s = true ↔ ∃ t, s = p ++ t := by
  induction p with
  | nil => intro s; simp [leadsList]
  | cons a as ih =>
      intro s
      cases s with
      | nil => simp [leadsList]
      | cons b bs =>
          simp only [leadsList, Bool.and_eq_true, beq_iff_eq, ih bs, List.cons_append,
            List.cons.injEq]
          constructor
          · rintro ⟨rfl, t, rfl⟩; exact ⟨t, rfl, rfl⟩
          · rintro ⟨t, rfl, rfl⟩; exact ⟨rfl, t, rfl⟩

lemma occursIn_iff (p : List Char) : ∀ s, occursIn p s = true ↔ ∃ l r, s = l ++ p ++ r := by
  intro s
  induction s with
  | nil =>
      simp only [occursIn, leadsList_iff]
      constructor
      · rintro ⟨t, ht⟩
        exact ⟨[], t, by simpa using ht⟩
      · rintro ⟨l, r, hlr⟩
        have hl : (l = [] ∧ p = []) ∧ r = [] := by
          simpa using List.append_eq_nil.mp hlr.symm
        exact ⟨r, by simp [hl.1.2, hl.2]⟩
  | cons b bs ih =>
      simp only [occursIn, Bool.or_eq_true, leadsList_iff, ih]
      constructor
      · rintro (⟨t, ht⟩ | ⟨l, r, hlr⟩)
        · exact ⟨[], t, by simpa using ht⟩
        · exact ⟨b :: l, r, by simp [hlr]⟩
      · rintro ⟨l, r, hlr⟩
        cases l with
        | nil => exact Or.inl ⟨r, by simpa using hlr⟩
        | cons c cs =>
            right
            refine ⟨cs, r, ?_⟩
            have := hlr
            simp only [List.cons_append, List.cons.injEq] at this
            exact this.2

/-- Occurrence is inherited by any contiguous part of the pattern. -/
lemma occursIn_of_occursIn_append (x p y s : List Char)
    (h : occursIn (x ++ p ++ y) s = true) : occursIn p s = true := by
  rcases (occursIn_iff _ s).mp h with ⟨l, r, rfl⟩
  exact (occursIn_iff _ _).mpr ⟨l ++ x, y ++ r, by simp⟩

/-- Every member of a joined fragment list occurs in the joined string. -/
lemma occursIn_joinParts (sep p : String) : ∀ l : List String, p ∈ l →
    occursIn p.data (joinParts sep l).data = true := by
  intro l
  induction l with
  | nil => intro h; cases h
  | cons x xs ih =>
      intro hmem
      cases xs with
      | nil =>
          have hx : p = x := by simpa using hmem
          subst hx
          exact (occursIn_iff _ _).mpr ⟨[], [], by simp [joinParts]⟩
      | cons y ys =>
          rcases List.mem_cons.mp hmem with rfl | hmem'
          · exact (occursIn_iff _ _).mpr
              ⟨[], sep.data ++ (joinParts sep (y :: ys)).data, by
                simp [joinParts, data_append]⟩
          · have hrec := ih hmem'
            rcases (occursIn_iff _ _).mp hrec with ⟨l₁, r₁, hsplit⟩
            exact (occursIn_iff _ _).mpr
              ⟨x.data ++ sep.data ++ l₁, r₁, by
                simp [joinParts, data_append, hsplit]⟩

/-- The goal list of the code equals the spec's ordered table scan. -/
lemma detectGoals_eq_spec (text : String) : detectGoals text = specDetectGoals text := by
  cases hw : weightLossKws.any (fun k => strIn k text) <;>
    cases hm : muscleKws.any (fun k => strIn k text) <;>
      cases he : energyKws.any (fun k => strIn k text) <;>
        cases hg : gutKws.any (fun k => strIn k text) <;>
          simp [detectGoals, specDetectGoals, specGoalTable, List.filter, hw, hm, he, hg]

lemma isHexCh_hexDigit : ∀ m : Fin 16, isHexCh (hexDigit m.val) = true := by decide

lemma hexDigit_inj : ∀ m n : Fin 16, hexDigit m.val = hexDigit n.val → m = n := by decide

lemma byteHex_inj {a b : Nat} (ha : a < 256) (hb : b < 256)
    (h : byteHex a = byteHex b) : a = b := by
  have hdiva : a / 16 < 16 := Nat.div_lt_of_lt_mul (by omega)
  have hdivb : b / 16 < 16 := Nat.div_lt_of_lt_mul (by omega)
  have hmoda : a % 16 < 16 := Nat.mod_lt _ (by omega)
  have hmodb : b % 16 < 16 := Nat.mod_lt _ (by omega)
  simp only [byteHex, List.cons.injEq, and_true] at h
  have h1 := hexDigit_inj ⟨a / 16, hdiva⟩ ⟨b / 16, hdivb⟩ h.1
  have h2 := hexDigit_inj ⟨a % 16, hmoda⟩ ⟨b % 16, hmodb⟩ h.2
  have e1 : a / 16 = b / 16 := congrArg Fin.val h1
  have e2 : a % 16 = b % 16 := congrArg Fin.val h2
  omega

lemma bytesHex_data (bs : List Nat) : (bytesHex bs).data = (bs.map byteHex).flatten := rfl

lemma bytesHex_length (bs : List Nat) : (bytesHex bs).length = 2 * bs.length := by
  show ((bs.map byteHex).flatten).length = 2 * bs.length
  induction bs with
  | nil => rfl
  | cons a as ih => simp [byteHex, ih]; omega

lemma bytesHex_all_hex (bs : List Nat) (h : ∀ b ∈ bs, b < 256) :
    (bytesHex bs).data.all isHexCh = true := by
  rw [bytesHex_data, List.all_eq_true]
  intro c hc
  rcases List.mem_flatten.mp hc with ⟨l, hl, hcl⟩
  rcases List.mem_map.mp hl with ⟨b, hb, rfl⟩
  have hb' := h b hb
  have hdiv : b / 16 < 16 := Nat.div_lt_of_lt_mul (by omega)
  have hmod : b % 16 < 16 := Nat.mod_lt _ (by omega)
  rcases (by simpa [byteHex] using hcl : c = hexDigit (b / 16) ∨ c = hexDigit (b % 16)) with
    rfl | rfl
  · exact isHexCh_hexDigit ⟨b / 16, hdiv⟩
  · exact isHexCh_hexDigit ⟨b % 16, hmod⟩

lemma bytesHex_inj (bs1 : List Nat) : ∀ bs2 : List Nat, bs1.length = bs2.length →
    (∀ b ∈ bs1, b < 256) → (∀ b ∈ bs2, b < 256) →
    bytesHex bs1 = bytesHex bs2 → bs1 = bs2 := by
  induction bs1 with
  | nil =>
      intro bs2 hlen _ _ _
      cases bs2 with
      | nil => rfl
      | cons b bs => simp at hlen
  | cons a as ih =>
      intro bs2 hlen h1 h2 heq
      cases bs2 with
      | nil => simp at hlen
      | cons b bs =>
          have hdata : (bytesHex (a :: as)).data = (bytesHex (b :: bs)).data := by rw [heq]
          rw [bytesHex_data, bytesHex_data] at hdata
          simp only [List.map_cons, List.flatten_cons, byteHex, List.cons_append,
            List.nil_append, List.cons.injEq] at hdata
          obtain ⟨hd1, hd2, hrest⟩ := hdata
          have hab : a = b := by
            refine byteHex_inj (h1 a (by simp)) (h2 b (by simp)) ?_
            simp [byteHex, hd1, hd2]
          have htail : as = bs := by
            refine ih bs (by simpa using hlen) (fun x hx => h1 x (by simp [hx]))
              (fun x hx => h2 x (by simp [hx])) ?_
            show (⟨(as.map byteHex).flatten⟩ : String) = ⟨(bs.map byteHex).flatten⟩
            rw [hrest]
          rw [hab, htail]

lemma pyStrip_empty : pyStrip "" = "" := rfl

lemma message_ne_empty {m : String} (h : pyStrip m ≠ "") : m ≠ "" := by
  intro he
  exact h (by rw [he]; rfl)

lemma create_message_two (log : List Message) (u a : Message) :
    create_message (create_message log u) a = log ++ [u, a] := by
  simp [create_message]

/-- The pooled keyword condition of the spec: some goal keyword or one of
the extra trigger substrings occurs in the (lowercased) input. -/
def matchesAnyKeyword (t : String) : Bool :=
  (weightLossKws ++ muscleKws ++ energyKws ++ gutKws ++
    ["breakfast", "vegan", "plan"]).any (fun k => strIn k t)

/- ----------------------------------------------------------------- -/
/- Claim theorems                                                     -/
/- ----------------------------------------------------------------- -/

set_option maxRecDepth 100000 in
/-- C1 (counterexample): the claim "any input containing both `lose weight`
and `tired` yields a goal fragment listing `weight loss, energy`" is false
as stated: the input "lose weight tired muscle" contains both keywords,
yet its reply lists "weight loss, muscle gain, energy" and the listing
"weight loss, energy" appears nowhere in the output. -/
theorem goal_pair_listing_counterexample :
    strIn "lose weight" (pyLower "lose weight tired muscle") = true ∧
    strIn "tired" (pyLower "lose weight tired muscle") = true ∧
    strIn "weight loss, energy" (generate_nutrition_reply "lose weight tired muscle") = false := by
  decide

/-- C1 (amended): `generate_nutrition_reply` collects all matched goal
labels in the fixed declaration order (weight loss, muscle gain, energy,
gut health) independent of the order the keywords appear in the input —
`detectGoals` equals the spec's ordered table scan `specDetectGoals` — and
any input containing both "lose weight" and "tired" that matches no muscle
or gut keyword set yields the goal fragment listing "weight loss, energy",
which is the string "I detect goals around weight loss, energy.". -/
theorem detect_goals_declaration_order :
    (∀ text : String, detectGoals text = specDetectGoals text) ∧
    (∀ s : String, strIn "lose weight" (pyLower s) = true →
      strIn "tired" (pyLower s) = true →
      muscleKws.any (fun k => strIn k (pyLower s)) = false →
      gutKws.any (fun k => strIn k (pyLower s)) = false →
      strIn (goalFragment ["weight loss", "energy"]) (generate_nutrition_reply s) = true) ∧
    goalFragment ["weight loss", "energy"] = "I detect goals around weight loss, energy." := by
  refine ⟨detectGoals_eq_spec, ?_, rfl⟩
  intro s h1 h2 hm hg
  have hw : weightLossKws.any (fun k => strIn k (pyLower s)) = true := by
    simp [weightLossKws, h1]
  have he : energyKws.any (fun k => strIn k (pyLower s)) = true := by
    simp [energyKws, h2]
  have hgoals : detectGoals (pyLower s) = ["weight loss", "energy"] := by
    simp [detectGoals, hw, hm, he, hg]
  have hmem : goalFragment ["weight loss", "energy"] ∈ replyParts s := by
    simp [replyParts, hgoals]
  exact occursIn_joinParts " " _ _ hmem

/-- C1 (witness): the amended claim at the spec's own example input. -/
theorem detect_goals_declaration_order_check :
    strIn "lose weight" (pyLower "I feel tired and want to lose weight") = true ∧
    strIn "tired" (pyLower "I feel tired and want to lose weight") = true ∧
    muscleKws.any (fun k => strIn k (pyLower "I feel tired and want to lose weight")) = false ∧
    gutKws.any (fun k => strIn k (pyLower "I feel tired and want to lose weight")) = false ∧
    strIn (goalFragment ["weight loss", "energy"])
      (generate_nutrition_reply "I feel tired and want to lose weight") = true :=
  ⟨by decide, by decide, by decide, by decide,
   detect_goals_declaration_order.2.1 "I feel tired and want to lose weight"
     (by decide) (by decide) (by decide) (by decide)⟩

/-- C2: a non-empty input whose lowercased form contains none of the goal
keywords and none of "breakfast", "vegan", "plan" gets exactly the three
always-present fragments, joined by single spaces in fixed order. -/
theorem reply_no_keywords_three_fragments (s : String) (_hne : s ≠ "")
    (h : matchesAnyKeyword (pyLower s) = false) :
    generate_nutrition_reply s =
      joinParts " " [openingFragment, guidanceFragment, closingFragment] := by
  simp only [matchesAnyKeyword, weightLossKws, muscleKws, energyKws, gutKws,
    List.cons_append, List.nil_append, List.any_cons, List.any_nil,
    Bool.or_eq_false_iff] at h
  obtain ⟨h1, h2, h3, h4, h5, h6, h7, h8, h9, h10, h11, h12, h13, h14, h15, -⟩ := h
  have hmp : strIn "meal plan" (pyLower s) = false := by
    cases hx : strIn "meal plan" (pyLower s) with
    | false => rfl
    | true =>
        exfalso
        have hdecomp : ("meal plan" : String).data =
            ("meal " : String).data ++ ("plan" : String).data ++ [] := by decide
        have hplan : strIn "plan" (pyLower s) = true := by
          show occursIn ("plan" : String).data (pyLower s).data = true
          refine occursIn_of_occursIn_append ("meal " : String).data _ [] _ ?_
          rw [← hdecomp]
          exact hx
        exact Bool.false_ne_true (h15 ▸ hplan)
  simp [generate_nutrition_reply, replyParts, detectGoals, weightLossKws, muscleKws,
    energyKws, gutKws, h1, h2, h3, h4, h5, h6, h7, h8, h9, h10, h11, h12, h13, h14,
    h15, hmp]

/-- C2 (witness): the three-fragment output at the concrete input "hello". -/
theorem reply_no_keywords_three_fragments_check :
    ("hello" : String) ≠ "" ∧ matchesAnyKeyword (pyLower "hello") = false ∧
    generate_nutrition_reply "hello" =
      joinParts " " [openingFragment, guidanceFragment, closingFragment] :=
  ⟨by decide, by decide, reply_no_keywords_three_fragments "hello" (by decide) (by decide)⟩

/-- C8: any input whose lowercased form contains "plan" as a substring —
also inside a larger word — gets the meal-plan-offer fragment; in
particular "plants are great" triggers it. -/
theorem plan_substring_triggers_meal_plan_offer :
    (∀ s : String, strIn "plan" (pyLower s) = true →
      strIn mealPlanFragment (generate_nutrition_reply s) = true) ∧
    strIn mealPlanFragment (generate_nutrition_reply "plants are great") = true := by
  have main : ∀ s : String, strIn "plan" (pyLower s) = true →
      strIn mealPlanFragment (generate_nutrition_reply s) = true := by
    intro s h
    have hmem : mealPlanFragment ∈ replyParts s := by
      simp [replyParts, h]
    exact occursIn_joinParts " " _ _ hmem
  exact ⟨main, main "plants are great" (by decide)⟩

/-- C8 (witness): the meal-plan offer at the concrete input of the spec. -/
theorem plan_substring_triggers_meal_plan_offer_check :
    strIn "plan" (pyLower "plants are great") = true ∧
    strIn mealPlanFragment (generate_nutrition_reply "plants are great") = true :=
  ⟨by decide, plan_substring_triggers_meal_plan_offer.1 "plants are great" (by decide)⟩

/-- C9: `generate_nutrition_reply` is deterministic and total — it is a
total function of its input (purity, totality and absence of I/O hold by
construction of the embedding, which is a plain function on strings), and
on the empty string it returns exactly the three always-present fragments
joined by single spaces. -/
theorem reply_deterministic_total :
    (∀ s t : String, s = t → generate_nutrition_reply s = generate_nutrition_reply t) ∧
    generate_nutrition_reply "" =
      joinParts " " [openingFragment, guidanceFragment, closingFragment] := by
  exact ⟨fun s t h => by rw [h], rfl⟩

/-- C9 (witness): determinism instantiated at "hi", and the empty-input
value. -/
theorem reply_deterministic_total_check :
    generate_nutrition_reply "hi" = generate_nutrition_reply "hi" ∧
    generate_nutrition_reply "" =
      joinParts " " [openingFragment, guidanceFragment, closingFragment] :=
  ⟨reply_deterministic_total.1 "hi" "hi" rfl, reply_deterministic_total.2⟩

/-- C3: a chat turn that succeeds while the store is available appends
exactly two new messages to the turn's session — first role "user" with
the caller's message, then role "assistant" with the generated reply —
and the messages of every other session are unchanged. -/
theorem chat_appends_user_then_assistant (msg : String) (sid : Option String)
    (rnd : List Nat) (now : Nat) (log : List Message)
    (hmsg : pyStrip msg ≠ "") :
    chat rnd now (some log) ⟨msg, sid⟩ =
      (Except.ok ⟨generate_nutrition_reply msg, chosenSessionId sid rnd, now⟩,
       some (log ++ [⟨chosenSessionId sid rnd, "user", msg⟩,
                     ⟨chosenSessionId sid rnd, "assistant", generate_nutrition_reply msg⟩])) ∧
    ∀ other : String, other ≠ chosenSessionId sid rnd →
      (log ++ ([⟨chosenSessionId sid rnd, "user", msg⟩,
                ⟨chosenSessionId sid rnd, "assistant", generate_nutrition_reply msg⟩] :
          List Message)).filter (fun m => m.session_id = other) =
        log.filter (fun m => m.session_id = other) := by
  have hne : msg ≠ "" := message_ne_empty hmsg
  constructor
  · simp [chat, chatCore, hne, hmsg, create_message]
  · intro other hother
    have hneq : ¬ (chosenSessionId sid rnd = other) := fun hh => hother hh.symm
    simp [List.filter_append, List.filter_cons, List.filter_nil, hneq]

/-- C3 (witness): the two-message append at a concrete turn. -/
theorem chat_appends_user_then_assistant_check :
    pyStrip "hi" ≠ "" ∧
    (chat [1] 0 (some []) ⟨"hi", none⟩ =
      (Except.ok ⟨generate_nutrition_reply "hi", chosenSessionId none [1], 0⟩,
       some ([] ++ [⟨chosenSessionId none [1], "user", "hi"⟩,
                    ⟨chosenSessionId none [1], "assistant", generate_nutrition_reply "hi"⟩])) ∧
    ∀ other : String, other ≠ chosenSessionId none [1] →
      (([] : List Message) ++ ([⟨chosenSessionId none [1], "user", "hi"⟩,
        ⟨chosenSessionId none [1], "assistant", generate_nutrition_reply "hi"⟩] :
          List Message)).filter (fun m => m.session_id = other) =
        ([] : List Message).filter (fun m => m.session_id = other)) :=
  ⟨by decide, chat_appends_user_then_assistant "hi" none [1] 0 [] (by decide)⟩

/-- C4: with the store unavailable, a valid (non-whitespace) chat turn
still returns a reply and a session identifier, stores zero messages
(the store stays `none`), and raises no error (the result is `ok`). -/
theorem chat_store_unavailable_still_replies (msg : String) (sid : Option String)
    (rnd : List Nat) (now : Nat) (h : pyStrip msg ≠ "") :
    chat rnd now none ⟨msg, sid⟩ =
      (Except.ok ⟨generate_nutrition_reply msg, chosenSessionId sid rnd, now⟩, none) := by
  have hne : msg ≠ "" := message_ne_empty h
  simp [chat, chatCore, hne, h]

/-- C4 (witness): the degraded-store turn at a concrete input. -/
theorem chat_store_unavailable_still_replies_check :
    pyStrip "hi" ≠ "" ∧
    chat [2] 7 none ⟨"hi", none⟩ =
      (Except.ok ⟨generate_nutrition_reply "hi", chosenSessionId none [2], 7⟩, none) :=
  ⟨by decide, chat_store_unavailable_still_replies "hi" none [2] 7 (by decide)⟩

/-- C5: a chat request whose message is empty or whitespace-only fails
with a client error (status in 400..499), leaves the store unchanged,
and never invokes the reply generator — the outcome is identical for
every generator `gen`. -/
theorem chat_blank_message_client_error (gen gen' : String → String)
    (rnd : List Nat) (now : Nat) (store : Option (List Message)) (req : ChatRequest)
    (h : pyStrip req.message = "") :
    (chatCore gen rnd now store req).2 = store ∧
    (∃ e, (chatCore gen rnd now store req).1 = Except.error e ∧
      400 ≤ e.status ∧ e.status < 500) ∧
    chatCore gen rnd now store req = chatCore gen' rnd now store req := by
  by_cases hm : req.message = ""
  · exact ⟨by simp [chatCore, hm],
      ⟨⟨422, "String should have at least 1 character"⟩, by simp [chatCore, hm],
        by norm_num, by norm_num⟩,
      by simp [chatCore, hm]⟩
  · exact ⟨by simp [chatCore, hm, h],
      ⟨⟨400, "Message cannot be empty"⟩, by simp [chatCore, hm, h],
        by norm_num, by norm_num⟩,
      by simp [chatCore, hm, h]⟩

/-- C5 (witness): the whitespace-only message " " at concrete state. -/
theorem chat_blank_message_client_error_check :
    pyStrip (" " : String) = "" ∧
    ((chatCore (fun s => s) [0] 0 (some []) ⟨" ", none⟩).2 = some [] ∧
     (∃ e, (chatCore (fun s => s) [0] 0 (some []) ⟨" ", none⟩).1 = Except.error e ∧
       400 ≤ e.status ∧ e.status < 500) ∧
     chatCore (fun s => s) [0] 0 (some []) ⟨" ", none⟩ =
       chatCore (fun _ => "") [0] 0 (some []) ⟨" ", none⟩) :=
  ⟨by decide,
   chat_blank_message_client_error (fun s => s) (fun _ => "") [0] 0 (some []) ⟨" ", none⟩
     (by decide)⟩

/-- C6: a chat turn without a caller-supplied session identifier returns
the hex rendering of the 8 fresh random bytes — a 16-character lowercase
hexadecimal token — and distinct random draws yield distinct identifiers
(the "different with overwhelming probability" clause, reduced to the
injectivity of the hex rendering on the random bytes). -/
theorem chat_mints_16_hex_session_id :
    (∀ (msg : String) (rnd : List Nat) (now : Nat) (store : Option (List Message)),
      pyStrip msg ≠ "" → rnd.length = 8 → (∀ b ∈ rnd, b < 256) →
      ∃ resp store', chat rnd now store ⟨msg, none⟩ = (Except.ok resp, store') ∧
        resp.session_id = bytesHex rnd ∧ resp.session_id.length = 16 ∧
        resp.session_id.data.all isHexCh = true) ∧
    (∀ r1 r2 : List Nat, r1.length = 8 → r2.length = 8 →
      (∀ b ∈ r1, b < 256) → (∀ b ∈ r2, b < 256) → r1 ≠ r2 →
      bytesHex r1 ≠ bytesHex r2) := by
  constructor
  · intro msg rnd now store hmsg hlen hlt
    have hne : msg ≠ "" := message_ne_empty hmsg
    have hlen16 : (bytesHex rnd).length = 16 := by rw [bytesHex_length, hlen]
    have hhex := bytesHex_all_hex rnd hlt
    cases store with
    | none =>
        exact ⟨⟨generate_nutrition_reply msg, bytesHex rnd, now⟩, none,
          by simp [chat, chatCore, hne, hmsg, chosenSessionId], rfl, hlen16, hhex⟩
    | some log =>
        exact ⟨⟨generate_nutrition_reply msg, bytesHex rnd, now⟩,
          some (log ++ [⟨bytesHex rnd, "user", msg⟩,
                        ⟨bytesHex rnd, "assistant", generate_nutrition_reply msg⟩]),
          by simp [chat, chatCore, hne, hmsg, chosenSessionId, create_message],
          rfl, hlen16, hhex⟩
  · intro r1 r2 hl1 hl2 hb1 hb2 hne12 heq
    exact hne12 (bytesHex_inj r1 r2 (by rw [hl1, hl2]) hb1 hb2 heq)

/-- C6 (witness): minting at concrete bytes, and distinctness of two
concrete draws. -/
theorem chat_mints_16_hex_session_id_check :
    (pyStrip "hi" ≠ "" ∧ ([0, 1, 2, 3, 4, 5, 6, 7] : List Nat).length = 8 ∧
      (∀ b ∈ ([0, 1, 2, 3, 4, 5, 6, 7] : List Nat), b < 256) ∧
      ∃ resp store', chat [0, 1, 2, 3, 4, 5, 6, 7] 0 none ⟨"hi", none⟩ =
          (Except.ok resp, store') ∧
        resp.session_id = bytesHex [0, 1, 2, 3, 4, 5, 6, 7] ∧
        resp.session_id.length = 16 ∧
        resp.session_id.data.all isHexCh = true) ∧
    bytesHex [0, 1, 2, 3, 4, 5, 6, 7] ≠ bytesHex [9, 9, 9, 9, 9, 9, 9, 9] :=
  ⟨⟨by decide, by decide, by decide,
    chat_mints_16_hex_session_id.1 "hi" [0, 1, 2, 3, 4, 5, 6, 7] 0 none
      (by decide) (by decide) (by decide)⟩,
   chat_mints_16_hex_session_id.2 [0, 1, 2, 3, 4, 5, 6, 7] [9, 9, 9, 9, 9, 9, 9, 9]
     (by decide) (by decide) (by decide) (by decide) (by decide)⟩

/-- C7: reading prior turns returns the empty sequence — never an error —
both when the store is unavailable and when the session has no recorded
messages. -/
theorem get_messages_empty_on_unavailable_or_unknown :
    (∀ (sid : String) (limit : Nat), get_messages none sid limit = []) ∧
    (∀ (log : List Message) (sid : String) (limit : Nat),
      log.filter (fun m => m.session_id = sid) = [] →
      get_messages (some log) sid limit = []) := by
  refine ⟨fun _ _ => rfl, fun log sid limit h => ?_⟩
  simp [get_messages, get_documents, h]

/-- C7 (witness): the empty read on an unavailable store and on a session
with no messages. -/
theorem get_messages_empty_on_unavailable_or_unknown_check :
    get_messages none "s" 50 = [] ∧
    ([⟨"a", "user", "x"⟩] : List Message).filter (fun m => m.session_id = "b") = [] ∧
    get_messages (some [⟨"a", "user", "x"⟩]) "b" 50 = [] :=
  ⟨get_messages_empty_on_unavailable_or_unknown.1 "s" 50, by decide,
   get_messages_empty_on_unavailable_or_unknown.2 [⟨"a", "user", "x"⟩] "b" 50 (by decide)⟩

/-- C10: a chat request whose `session_id` field is the empty string does
not echo the caller's value: the returned identifier is the freshly
minted 16-character hexadecimal token, and both stored messages are
keyed by that token (in particular not by `""`, the token being
non-empty). -/
theorem chat_empty_session_id_mints_fresh (msg : String) (rnd : List Nat)
    (now : Nat) (log : List Message) (hmsg : pyStrip msg ≠ "")
    (hlen : rnd.length = 8) (hlt : ∀ b ∈ rnd, b < 256) :
    chat rnd now (some log) ⟨msg, some ""⟩ =
      (Except.ok ⟨generate_nutrition_reply msg, bytesHex rnd, now⟩,
       some (log ++ [⟨bytesHex rnd, "user", msg⟩,
                     ⟨bytesHex rnd, "assistant", generate_nutrition_reply msg⟩])) ∧
    (bytesHex rnd).length = 16 ∧ (bytesHex rnd).data.all isHexCh = true ∧
    bytesHex rnd ≠ "" := by
  have hne : msg ≠ "" := message_ne_empty hmsg
  have hlen16 : (bytesHex rnd).length = 16 := by rw [bytesHex_length, hlen]
  refine ⟨by simp [chat, chatCore, hne, hmsg, chosenSessionId, create_message],
    hlen16, bytesHex_all_hex rnd hlt, ?_⟩
  intro hempty
  rw [hempty] at hlen16
  exact absurd hlen16 (by decide)

/-- C10 (witness): the empty-string session id at a concrete turn. -/
theorem chat_empty_session_id_mints_fresh_check :
    pyStrip "hi" ≠ "" ∧ ([3, 1, 4, 1, 5, 9, 2, 6] : List Nat).length = 8 ∧
    (∀ b ∈ ([3, 1, 4, 1, 5, 9, 2, 6] : List Nat), b < 256) ∧
    (chat [3, 1, 4, 1, 5, 9, 2, 6] 3 (some []) ⟨"hi", some ""⟩ =
      (Except.ok ⟨generate_nutrition_reply "hi", bytesHex [3, 1, 4, 1, 5, 9, 2, 6], 3⟩,
       some ([] ++ [⟨bytesHex [3, 1, 4, 1, 5, 9, 2, 6], "user", "hi"⟩,
                    ⟨bytesHex [3, 1, 4, 1, 5, 9, 2, 6], "assistant",
                      generate_nutrition_reply "hi"⟩])) ∧
     (bytesHex [3, 1, 4, 1, 5, 9, 2, 6]).length = 16 ∧
     (bytesHex [3, 1, 4, 1, 5, 9, 2, 6]).data.all isHexCh = true ∧
     bytesHex [3, 1, 4, 1, 5, 9, 2, 6] ≠ "") :=
  ⟨by decide, by decide, by decide,
   chat_empty_session_id_mints_fresh "hi" [3, 1, 4, 1, 5, 9, 2, 6] 3 []
     (by decide) (by decide) (by decide)⟩

end NutriTailor
